import Mathlib

/-!
Shallow embedding of the scoring and aggregation core of the
Major_Sign_language backend (models/Assignment.js, the Media model,
controllers/reportController.js, controllers/practiceController.js).

Strings are modelled as `List Char`; JavaScript numbers as `ℚ`/`ℤ`/`ℕ`
(the code only performs exact integer and rational arithmetic on them);
Mongo ObjectIds as `ℕ` (the code compares them via `toString()` equality);
`Date` values as milliseconds since the epoch (`ℤ`) or as symbolic
calendar constructions where the code builds them from calendar fields.
-/

namespace SignLang

/-- JavaScript `Math.round`: round half towards positive infinity,
i.e. `⌊x + 1/2⌋`. -/
def jsRound (q : ℚ) : ℤ := ⌊q + 1/2⌋

/-- The whitespace class of JavaScript (`\s` in a regex, and the
characters removed by `String.prototype.trim`), restricted to its ASCII
part, which is all the repository's data can contain after the
normalisations in play. -/
def jsIsSpace (c : Char) : Bool :=
  c == ' ' || c == '\t' || c == '\n' || c == '\r' || c == '\x0b' || c == '\x0c'

/-- JavaScript `String.prototype.trim`: drop whitespace from both ends. -/
def jsTrim (l : List Char) : List Char :=
  ((l.dropWhile jsIsSpace).reverse.dropWhile jsIsSpace).reverse

/-- JavaScript `String.prototype.toLowerCase` (ASCII case folding). -/
def jsToLower (l : List Char) : List Char := l.map Char.toLower

/-- `s.toLowerCase().trim()`, the normalisation submitAssignment applies to
both the submitted answer and the stored correct answer. -/
def lowerTrim (l : List Char) : List Char := jsTrim (jsToLower l)

/-! ## Assignment model (src/models/Assignment.js) -/

/-- `questionType` enum of the assignment schema. -/
inductive QType where
  | multiple_choice
  | short_answer
  | long_answer
  | true_false
deriving DecidableEq

/-- A question subdocument of an assignment. -/
structure Question where
  questionId : ℕ
  questionType : QType
  correctAnswer : List Char
  points : ℕ
deriving DecidableEq

/-- One element of the `answers` array sent to `submitAssignment`. -/
structure SubmittedAnswer where
  questionId : ℕ
  answer : List Char
deriving DecidableEq

/-- One element of a stored submission's `answers` array. -/
structure ProcessedAnswer where
  questionId : ℕ
  answer : List Char
  isCorrect : Bool
  pointsEarned : ℕ
deriving DecidableEq

/-- A submission subdocument of an assignment. -/
structure Submission where
  studentId : ℕ
  answers : List ProcessedAnswer
  score : ℤ
  percentage : ℤ
  feedback : Option (List Char)
  submittedAt : ℤ
  gradedAt : Option ℤ
  gradedBy : Option ℕ
deriving DecidableEq

/-- The slice of an assignment document that the scoring methods read. -/
structure Assignment where
  questions : List Question
  totalPoints : ℕ
  submissions : List Submission
deriving DecidableEq

/-- `this.questions.id(qid)`: the subdocument whose `_id` matches. -/
def findQuestion (a : Assignment) (qid : ℕ) : Option Question :=
  a.questions.find? (fun q => q.questionId == qid)

/-- The body of `submitAssignment`'s `answers.map` callback: look the
question up; mark correct iff the lower-cased, trimmed texts agree; award
the question's full `points` on a match and 0 otherwise (a missing
question silently scores 0). -/
def processAnswer (a : Assignment) (ans : SubmittedAnswer) : ProcessedAnswer :=
  match findQuestion a ans.questionId with
  | some q =>
      if lowerTrim ans.answer = lowerTrim q.correctAnswer then
        { questionId := ans.questionId, answer := ans.answer,
          isCorrect := true, pointsEarned := q.points }
      else
        { questionId := ans.questionId, answer := ans.answer,
          isCorrect := false, pointsEarned := 0 }
  | none =>
      { questionId := ans.questionId, answer := ans.answer,
        isCorrect := false, pointsEarned := 0 }

/-- `percentage = this.totalPoints > 0 ? Math.round((score/this.totalPoints)*100) : 0`. -/
def percentageOf (totalPoints : ℕ) (score : ℤ) : ℤ :=
  if 0 < totalPoints then jsRound ((score : ℚ) / (totalPoints : ℚ) * 100) else 0

/-- `assignmentSchema.methods.submitAssignment`: drop any existing
submission by the student, score each answer, and push the new submission. -/
def submitAssignment (a : Assignment) (sid : ℕ) (answers : List SubmittedAnswer)
    (now : ℤ) : Assignment :=
  let kept := a.submissions.filter (fun s => s.studentId != sid)
  let processed := answers.map (processAnswer a)
  let score : ℤ := ((processed.map (fun pa => pa.pointsEarned)).sum : ℕ)
  { a with submissions := kept ++
      [{ studentId := sid, answers := processed, score := score,
         percentage := percentageOf a.totalPoints score,
         feedback := none, submittedAt := now,
         gradedAt := none, gradedBy := none }] }

/-- The exception-level behaviour of `submitAssignment`: the method body
contains no `throw`, so on well-typed inputs the call always succeeds. -/
def submitAssignmentE (a : Assignment) (sid : ℕ) (answers : List SubmittedAnswer)
    (now : ℤ) : Except (List Char) Assignment :=
  Except.ok (submitAssignment a sid answers now)

/-- The field updates `gradeAssignment` performs on the found submission. -/
def regrade (totalPoints : ℕ) (score : ℤ) (feedback : List Char)
    (gradedBy : ℕ) (now : ℤ) (s : Submission) : Submission :=
  { s with score := score,
           percentage := percentageOf totalPoints score,
           feedback := some feedback,
           gradedAt := some now,
           gradedBy := some gradedBy }

/-- Update the first list element satisfying `p` with `f`; `none` when no
element satisfies `p` (models `Array.prototype.find` followed by in-place
mutation of the found element). -/
def updateFirst (p : α → Bool) (f : α → α) : List α → Option (List α)
  | [] => none
  | x :: xs =>
      if p x then some (f x :: xs)
      else (updateFirst p f xs).map (fun ys => x :: ys)

/-- `assignmentSchema.methods.gradeAssignment`: overwrite
score/percentage/feedback/gradedAt/gradedBy on the student's submission,
or throw `Submission not found` when there is none. -/
def gradeAssignment (a : Assignment) (sid : ℕ) (score : ℤ)
    (feedback : List Char) (gradedBy : ℕ) (now : ℤ) :
    Except (List Char) Assignment :=
  match updateFirst (fun s => s.studentId == sid)
      (regrade a.totalPoints score feedback gradedBy now) a.submissions with
  | some subs => Except.ok { a with submissions := subs }
  | none => Except.error ("Submission not found".toList)

/-! ## Practice model: writing evaluation (src/models/Assignment.js,
Practice schema half) -/

/-- A character kept by the normalisation regex replace
`/[^a-z0-9\s]/g → ''` (applied after `toLowerCase`). -/
def keepChar (c : Char) : Bool :=
  (decide (97 ≤ c.toNat) && decide (c.toNat ≤ 122)) ||
  (decide (48 ≤ c.toNat) && decide (c.toNat ≤ 57)) ||
  jsIsSpace c

/-- The local `normalize` of `calculateContentSimilarity`:
`str.toLowerCase().replace(/[^a-z0-9\s]/g, '').trim()`. -/
def normalizeContent (l : List Char) : List Char :=
  jsTrim ((jsToLower l).filter keepChar)

/-- Number of positions `i < min(len1,len2)` where the two lists hold
equal characters (the loop of `calculateContentSimilarity`). -/
def countMatches : List Char → List Char → ℕ
  | a :: as, b :: bs => (if a = b then 1 else 0) + countMatches as bs
  | _, _ => 0

/-- `practiceSchema.methods.calculateContentSimilarity`. The first guard
is the JavaScript falsiness test `!content1 || !content2`, which an empty
string satisfies. -/
def calculateContentSimilarity (content1 content2 : List Char) : ℚ :=
  if content1 = [] ∨ content2 = [] then 0
  else
    let norm1 := normalizeContent content1
    let norm2 := normalizeContent content2
    if norm1 = norm2 then 1
    else
      let maxLen := max norm1.length norm2.length
      if maxLen = 0 then 1
      else (countMatches norm1 norm2 : ℚ) / (maxLen : ℚ)

/-- `practiceSchema.methods.evaluateWriting`, as the pair
(accuracy, score) it stores on the document. -/
def evaluateWriting (content targetContent : List Char) (maxScore : ℚ) :
    ℤ × ℤ :=
  let similarity := calculateContentSimilarity content targetContent
  let accuracy := jsRound (similarity * 100)
  (accuracy, jsRound (((accuracy : ℚ) / 100) * maxScore))

/-! ## Overall progress score (src/controllers/reportController.js) -/

/-- The field of a per-type practice stat read by the progress score. -/
structure PracticeStat where
  averageAccuracy : ℚ
deriving DecidableEq

/-- The field of a per-class assignment performance row read by the
progress score. -/
structure AssignmentPerf where
  averagePercentage : ℚ
deriving DecidableEq

/-- The field of a per-class media consumption row read by the progress
score. -/
structure MediaCons where
  averageWatchPercentage : ℚ
deriving DecidableEq

/-- `calculateOverallProgressScore` from reportController.js: weighted
composite with weight renormalisation over the non-empty categories. -/
def calculateOverallProgressScore (practiceStats : List PracticeStat)
    (assignmentPerformance : List AssignmentPerf)
    (mediaConsumption : List MediaCons) : ℤ :=
  let s0 : ℚ := 0
  let w0 : ℚ := 0
  let s1 := if 0 < practiceStats.length then
      s0 + ((practiceStats.map (fun st => st.averageAccuracy)).sum /
        (practiceStats.length : ℚ)) / 100 * 40
    else s0
  let w1 := if 0 < practiceStats.length then w0 + 40 else w0
  let s2 := if 0 < assignmentPerformance.length then
      s1 + ((assignmentPerformance.map (fun p => p.averagePercentage)).sum /
        (assignmentPerformance.length : ℚ)) / 100 * 40
    else s1
  let w2 := if 0 < assignmentPerformance.length then w1 + 40 else w1
  let s3 := if 0 < mediaConsumption.length then
      s2 + ((mediaConsumption.map (fun m => m.averageWatchPercentage)).sum /
        (mediaConsumption.length : ℚ)) / 100 * 20
    else s2
  let w3 := if 0 < mediaConsumption.length then w2 + 20 else w2
  if 0 < w3 then jsRound (s3 / w3 * 100) else 0

/-! ## Media views (Media model, src/unnamed/part_000) -/

/-- One element of a media document's `views` array. -/
structure ViewRecord where
  studentId : ℕ
  percentage : ℚ
  date : ℤ
deriving DecidableEq

/-- The slice of a media document that `addView` reads and writes. -/
structure Media where
  views : List ViewRecord
deriving DecidableEq

/-- `mediaSchema.methods.addView`: update the student's existing view
record to the max of old and new percentage and refresh its date, or push
a fresh record when the student has none. -/
def addView (m : Media) (sid : ℕ) (percentage : ℚ) (now : ℤ) : Media :=
  match updateFirst (fun v => v.studentId == sid)
      (fun v => { v with percentage := max v.percentage percentage,
                         date := now }) m.views with
  | some vs => { m with views := vs }
  | none => { m with views := m.views ++
      [{ studentId := sid, percentage := percentage, date := now }] }

/-! ## Time-window resolution (reportController.js and
practiceController.js `getPracticeStats`) -/

/-- The calendar fields of `now` that the switch statements read
(`getTime()`, `getFullYear()`, `getMonth()`, `getDate()`). -/
structure JsDate where
  ms : ℤ
  year : ℤ
  month : ℤ
  day : ℤ
deriving DecidableEq

/-- A `Date` value as the switches construct it: either from millisecond
arithmetic (`new Date(now.getTime() - k)`) or from calendar components
(`new Date(y, m, d)`). -/
inductive DateExpr where
  | ofMs (ms : ℤ)
  | ofYMD (y m d : ℤ)
deriving DecidableEq

/-- Milliseconds in `n` days, `n * 24 * 60 * 60 * 1000`. -/
def daysMs (n : ℤ) : ℤ := n * 24 * 60 * 60 * 1000

/-- The `switch (period)` of `getStudentProgressReport`
(reportController.js): cases week / month / quarter / year, default =
rolling 30 days. -/
def reportStartDate (period : List Char) (now : JsDate) : DateExpr :=
  if period = ("week".toList) then DateExpr.ofMs (now.ms - daysMs 7)
  else if period = ("month".toList) then DateExpr.ofMs (now.ms - daysMs 30)
  else if period = ("quarter".toList) then DateExpr.ofMs (now.ms - daysMs 90)
  else if period = ("year".toList) then DateExpr.ofYMD now.year 0 1
  else DateExpr.ofMs (now.ms - daysMs 30)

/-- The `switch (period)` of `getPracticeStats`
(practiceController.js): cases day / week / month / year, default =
rolling 7 days. -/
def practiceStatsStartDate (period : List Char) (now : JsDate) : DateExpr :=
  if period = ("day".toList) then DateExpr.ofYMD now.year now.month now.day
  else if period = ("week".toList) then DateExpr.ofMs (now.ms - daysMs 7)
  else if period = ("month".toList) then DateExpr.ofYMD now.year now.month 1
  else if period = ("year".toList) then DateExpr.ofYMD now.year 0 1
  else DateExpr.ofMs (now.ms - daysMs 7)

/-! ## Class analytics student engagement (reportController.js
`getClassAnalytics`) -/

/-- The fields of a practice session read by the engagement aggregation. -/
structure PSession where
  studentId : ℕ
  accuracy : ℚ
  timeSpent : ℚ
deriving DecidableEq

/-- One row of the `$group`-by-student engagement aggregation. -/
structure EngagementStat where
  studentId : ℕ
  totalPractices : ℕ
  averageAccuracy : ℚ
  totalTimeSpent : ℚ
deriving DecidableEq

/-- The distinct grouping keys, in first-occurrence order. -/
def firstOccIds : List ℕ → List ℕ
  | [] => []
  | x :: xs => x :: (firstOccIds xs).filter (fun y => y != x)

/-- The `$group` accumulators for one student: `totalPractices` (count),
`averageAccuracy` (mean), `totalTimeSpent` (sum). -/
def statFor (sessions : List PSession) (sid : ℕ) : EngagementStat :=
  let mine := sessions.filter (fun s => s.studentId == sid)
  { studentId := sid,
    totalPractices := mine.length,
    averageAccuracy := (mine.map (fun s => s.accuracy)).sum / (mine.length : ℚ),
    totalTimeSpent := (mine.map (fun s => s.timeSpent)).sum }

/-- Stable insertion into a list sorted by `totalPractices` descending. -/
def insertByCount (s : EngagementStat) : List EngagementStat → List EngagementStat
  | [] => [s]
  | t :: ts =>
      if t.totalPractices < s.totalPractices then s :: t :: ts
      else t :: insertByCount s ts

/-- `$sort: { totalPractices: -1 }` as a stable insertion sort. -/
def sortByCountDesc : List EngagementStat → List EngagementStat
  | [] => []
  | s :: ss => insertByCount s (sortByCountDesc ss)

/-- The engagement pipeline of `getClassAnalytics`: group the window's
sessions by student and sort by practice count descending. -/
def studentEngagement (sessions : List PSession) : List EngagementStat :=
  sortByCountDesc ((firstOccIds (sessions.map (fun s => s.studentId))).map
    (statFor sessions))

/-- `topPerformers = classStats[2].slice(0, 5)`. -/
def topPerformers (sessions : List PSession) : List EngagementStat :=
  (studentEngagement sessions).take 5

/-- The struggling-student predicate
`student.averageAccuracy < 60 || student.totalPractices < 3`. -/
def isStruggling (s : EngagementStat) : Bool :=
  decide (s.averageAccuracy < 60) || decide (s.totalPractices < 3)

/-- `strugglingStudents = classStats[2].filter(...).slice(0, 5)`. -/
def strugglingStudents (sessions : List PSession) : List EngagementStat :=
  ((studentEngagement sessions).filter isStruggling).take 5

/-! ## savePractice (src/controllers/practiceController.js) -/

/-- `type` enum of the practice schema. -/
inductive PType where
  | writing
  | typing
  | drawing
deriving DecidableEq

/-- JavaScript `x || d` for an optional numeric `x`: `undefined` and `0`
are falsy. -/
def jsOrQ (x : Option ℚ) (d : ℚ) : ℚ :=
  match x with
  | some v => if v = 0 then d else v
  | none => d

/-- JavaScript `x >= 80` for an optional numeric `x`:
`undefined >= 80` is false. -/
def jsGe (x : Option ℚ) (bound : ℚ) : Bool :=
  match x with
  | some v => decide (bound ≤ v)
  | none => false

/-- The slice of a practice document that `savePractice` writes and the
claims read. -/
structure PracticeDoc where
  ptype : PType
  content : List Char
  targetContent : Option (List Char)
  accuracy : ℚ
  score : ℚ
  maxScore : ℚ
  attempts : ℚ
  timeSpent : ℚ
  isCompleted : Bool
  completionTime : Option ℚ
deriving DecidableEq

/-- JavaScript truthiness of an optional string: `undefined` and the
empty string are falsy. -/
def truthyStr (s : Option (List Char)) : Bool :=
  match s with
  | some l => !(l.isEmpty)
  | none => false

/-- The body of `savePractice` (practiceController.js): build the
document with `|| `-defaults, recompute accuracy/score for writing
sessions via `evaluateWriting`, then set the completion flag from the
RAW request-body `accuracy` variable (not the recomputed field) and
`practice.attempts`. -/
def savePractice (ptype : PType) (content : List Char)
    (targetContent : Option (List Char)) (accuracy : Option ℚ)
    (timeSpent : Option ℚ) (attempts : Option ℚ) : PracticeDoc :=
  let p0 : PracticeDoc :=
    { ptype := ptype, content := content, targetContent := targetContent,
      accuracy := jsOrQ accuracy 0, score := 0, maxScore := 100,
      attempts := jsOrQ attempts 1, timeSpent := jsOrQ timeSpent 0,
      isCompleted := false, completionTime := none }
  let p1 :=
    if ptype = PType.writing && truthyStr targetContent then
      match targetContent with
      | some t =>
          let e := evaluateWriting content t p0.maxScore
          { p0 with accuracy := (e.1 : ℚ), score := (e.2 : ℚ) }
      | none => p0
    else p0
  if jsGe accuracy 80 || decide ((3 : ℚ) ≤ p1.attempts) then
    { p1 with isCompleted := true,
              completionTime := timeSpent }
  else p1

/-! ## Auxiliary definitions used by the theorems -/

/-- Replace every question's `questionType`, leaving everything else of
the assignment unchanged (used to state that grading is identical for
every question type). -/
def retypeQuestions (qt : QType) (a : Assignment) : Assignment :=
  { a with questions := a.questions.map (fun q => { q with questionType := qt }) }

/-- The number of positions `i` below `min len1 len2` at which the two
lists agree, written the way the specification words it (used to relate
`countMatches` to the spec's description). -/
def positionalMatches (n1 n2 : List Char) : ℕ :=
  (List.range (min n1.length n2.length)).countP
    (fun i => n1.getD i ' ' == n2.getD i ' ')

/-- The ordering the engagement pipeline sorts by:
`totalPractices` descending. -/
def countGE (a b : EngagementStat) : Prop :=
  b.totalPractices ≤ a.totalPractices

/-! ### Concrete inputs used by counterexamples and witnesses -/

/-- A pre-existing submission by student 7, used by witnesses. -/
def exOldSub : Submission :=
  { studentId := 7, answers := [], score := 1, percentage := 20,
    feedback := none, submittedAt := 0, gradedAt := none, gradedBy := none }

/-- A two-question assignment used by witnesses. -/
def exAssignment : Assignment :=
  { questions :=
      [{ questionId := 1, questionType := QType.short_answer,
         correctAnswer := (" Yes ".toList), points := 2 },
       { questionId := 2, questionType := QType.true_false,
         correctAnswer := ("true".toList), points := 3 }],
    totalPoints := 5,
    submissions := [exOldSub] }

/-- Answers submitted against `exAssignment`: one trimmed/case-folded
match, one miss. -/
def exAnswers : List SubmittedAnswer :=
  [{ questionId := 1, answer := ("yes".toList) },
   { questionId := 2, answer := ("false".toList) }]

/-- A one-question assignment used by the missing-question
counterexample. -/
def exAssignment6 : Assignment :=
  { questions :=
      [{ questionId := 1, questionType := QType.short_answer,
         correctAnswer := ("yes".toList), points := 2 }],
    totalPoints := 2,
    submissions := [] }

/-- Practice sessions for a class of four students with practice counts
10, 2, 8 and 1, all at accuracy 90 (the engagement-bucket example). -/
def exSessions : List PSession :=
  (List.range 10).map (fun _ => { studentId := 1, accuracy := 90, timeSpent := 1 }) ++
  (List.range 2).map (fun _ => { studentId := 2, accuracy := 90, timeSpent := 1 }) ++
  (List.range 8).map (fun _ => { studentId := 3, accuracy := 90, timeSpent := 1 }) ++
  (List.range 1).map (fun _ => { studentId := 4, accuracy := 90, timeSpent := 1 })

/-- The new submission `submitAssignment exAssignment 3 exAnswers 0`
creates (used by the C1 witness). -/
def exNewSub : Submission :=
  { studentId := 3,
    answers :=
      [{ questionId := 1, answer := ("yes".toList), isCorrect := true,
         pointsEarned := 2 },
       { questionId := 2, answer := ("false".toList), isCorrect := false,
         pointsEarned := 0 }],
    score := 2, percentage := 40, feedback := none, submittedAt := 0,
    gradedAt := none, gradedBy := none }

/-! ## Shared lemmas -/

lemma percentageOf_eq (tp : ℕ) (s : ℤ) :
    percentageOf tp s =
      if tp = 0 then 0 else jsRound ((s : ℚ) / (tp : ℚ) * 100) := by
  by_cases h : tp = 0
  · simp [percentageOf, h]
  · simp [percentageOf, h, Nat.pos_of_ne_zero h]

lemma find?_retype (qt : QType) (qid : ℕ) :
    ∀ l : List Question,
      (l.map (fun q => { q with questionType := qt })).find?
          (fun q => q.questionId == qid) =
        (l.find? (fun q => q.questionId == qid)).map
          (fun q => { q with questionType := qt })
  | [] => rfl
  | q :: rest => by
      simp only [List.map_cons, List.find?_cons]
      by_cases h : (q.questionId == qid) = true
      · simp [h]
      · simp [h, find?_retype qt qid rest]

lemma findQuestion_retype (qt : QType) (a : Assignment) (qid : ℕ) :
    findQuestion (retypeQuestions qt a) qid =
      (findQuestion a qid).map (fun q => { q with questionType := qt }) :=
  find?_retype qt qid a.questions

lemma processAnswer_retype (qt : QType) (a : Assignment)
    (ans : SubmittedAnswer) :
    processAnswer (retypeQuestions qt a) ans = processAnswer a ans := by
  unfold processAnswer
  rw [findQuestion_retype]
  cases hq : findQuestion a ans.questionId with
  | none => rfl
  | some q =>
      by_cases hm : lowerTrim ans.answer = lowerTrim q.correctAnswer <;>
        simp [hm]

lemma submitAssignment_retype (qt : QType) (a : Assignment) (sid : ℕ)
    (answers : List SubmittedAnswer) (now : ℤ) :
    submitAssignment (retypeQuestions qt a) sid answers now =
      retypeQuestions qt (submitAssignment a sid answers now) := by
  have hmap : answers.map (processAnswer (retypeQuestions qt a)) =
      answers.map (processAnswer a) :=
    List.map_congr_left (fun ans _ => processAnswer_retype qt a ans)
  simp only [submitAssignment, retypeQuestions] at hmap ⊢
  rw [hmap]

/-- Evaluation of `submitAssignment` on the witness input. -/
lemma exSubmitEval :
    (submitAssignment exAssignment 3 exAnswers 0).submissions =
      [exOldSub, exNewSub] := by
  have hans : exAnswers.map (processAnswer exAssignment) = exNewSub.answers := by
    decide
  simp only [submitAssignment]
  rw [hans]
  have hfil : exAssignment.submissions.filter (fun s => s.studentId != 3) =
      [exOldSub] := by decide
  rw [hfil]
  have hsum : ((exNewSub.answers.map (fun pa => pa.pointsEarned)).sum : ℕ) = 2 := by
    decide
  rw [hsum]
  have hpct : percentageOf exAssignment.totalPoints ((2:ℕ) : ℤ) = 40 := by
    norm_num [percentageOf, exAssignment, jsRound]
  rw [hpct]
  simp [exNewSub]

lemma updateFirst_eq_none {α : Type} (p : α → Bool) (f : α → α) :
    ∀ l : List α, (∀ x ∈ l, p x = false) → updateFirst p f l = none
  | [] => fun _ => rfl
  | x :: xs => fun h => by
      have hx := h x (List.mem_cons_self x xs)
      have hrest := updateFirst_eq_none p f xs
        (fun y hy => h y (List.mem_cons_of_mem x hy))
      simp [updateFirst, hx, hrest]

lemma updateFirst_append {α : Type} (p : α → Bool) (f : α → α)
    (l₁ : List α) (x : α) (l₂ : List α)
    (h₁ : ∀ t ∈ l₁, p t = false) (hx : p x = true) :
    updateFirst p f (l₁ ++ x :: l₂) = some (l₁ ++ f x :: l₂) := by
  induction l₁ with
  | nil => simp [updateFirst, hx]
  | cons t ts ih =>
      have ht := h₁ t (List.mem_cons_self t ts)
      have := ih (fun y hy => h₁ y (List.mem_cons_of_mem t hy))
      simp [updateFirst, ht, this]

lemma updateFirst_none_iff {α : Type} (p : α → Bool) (f : α → α) :
    ∀ l : List α, updateFirst p f l = none ↔ ∀ x ∈ l, p x = false
  | [] => by simp [updateFirst]
  | x :: xs => by
      by_cases hx : p x = true
      · simp [updateFirst, hx]
      · have hx' : p x = false := by simpa using hx
        simp [updateFirst, hx', updateFirst_none_iff p f xs,
          Option.map_eq_none]

lemma countP_updateFirst {α : Type} (p q : α → Bool) (f : α → α)
    (hf : ∀ x, p x = true → q (f x) = q x) :
    ∀ l l' : List α, updateFirst p f l = some l' →
      l'.countP q = l.countP q
  | [], l', h => by simp [updateFirst] at h
  | x :: xs, l', h => by
      by_cases hx : p x = true
      · rw [updateFirst, if_pos hx] at h
        cases h
        simp [List.countP_cons, hf x hx]
      · have hx' : p x = false := by simpa using hx
        rw [updateFirst, if_neg hx] at h
        rcases Option.map_eq_some'.mp h with ⟨ys, hys, rfl⟩
        simp [List.countP_cons,
          countP_updateFirst p q f hf xs ys hys]

lemma countMatches_eq_positional : ∀ n1 n2 : List Char,
    countMatches n1 n2 = positionalMatches n1 n2
  | [], n2 => by simp [countMatches, positionalMatches]
  | a :: as, [] => by simp [countMatches, positionalMatches]
  | a :: as, b :: bs => by
      have ih := countMatches_eq_positional as bs
      have hcomp : ((fun i => (a :: as).getD i ' ' == (b :: bs).getD i ' ') ∘
            Nat.succ) = fun i => as.getD i ' ' == bs.getD i ' ' := by
        funext i
        simp
      rw [countMatches, ih]
      simp only [positionalMatches, List.length_cons, Nat.succ_min_succ,
        List.range_succ_eq_map, List.countP_cons, List.countP_map, hcomp,
        List.getD_cons_zero]
      by_cases hab : a = b <;> simp [hab, Nat.add_comm]

lemma mem_insertByCount (x s : EngagementStat) :
    ∀ l : List EngagementStat, x ∈ insertByCount s l ↔ x = s ∨ x ∈ l
  | [] => by simp [insertByCount]
  | t :: ts => by
      by_cases h : t.totalPractices < s.totalPractices
      · simp [insertByCount, h, mem_insertByCount x s ts]
      · simp [insertByCount, h, mem_insertByCount x s ts]
        tauto

lemma perm_insertByCount (s : EngagementStat) :
    ∀ l : List EngagementStat, (insertByCount s l).Perm (s :: l)
  | [] => List.Perm.refl _
  | t :: ts => by
      by_cases h : t.totalPractices < s.totalPractices
      · rw [insertByCount, if_pos h]
      · rw [insertByCount, if_neg h]
        exact ((perm_insertByCount s ts).cons t).trans (List.Perm.swap s t ts)

lemma perm_sortByCountDesc :
    ∀ l : List EngagementStat, (sortByCountDesc l).Perm l
  | [] => List.Perm.refl _
  | s :: ss =>
      (perm_insertByCount s (sortByCountDesc ss)).trans
        ((perm_sortByCountDesc ss).cons s)

lemma pairwise_insertByCount (s : EngagementStat) :
    ∀ l : List EngagementStat, l.Pairwise countGE →
      (insertByCount s l).Pairwise countGE
  | [], _ => by simp [insertByCount, List.pairwise_singleton]
  | t :: ts, hp => by
      rcases List.pairwise_cons.mp hp with ⟨ht, hts⟩
      by_cases h : t.totalPractices < s.totalPractices
      · rw [insertByCount, if_pos h]
        refine List.pairwise_cons.mpr ⟨?_, hp⟩
        intro x hx
        rcases List.mem_cons.mp hx with rfl | hx'
        · exact Nat.le_of_lt h
        · exact Nat.le_trans (ht x hx') (Nat.le_of_lt h)
      · rw [insertByCount, if_neg h]
        refine List.pairwise_cons.mpr
          ⟨?_, pairwise_insertByCount s ts hts⟩
        intro x hx
        rcases (mem_insertByCount x s ts).mp hx with rfl | hx'
        · exact Nat.le_of_not_lt h
        · exact ht x hx'

lemma sorted_sortByCountDesc :
    ∀ l : List EngagementStat, (sortByCountDesc l).Pairwise countGE
  | [] => List.Pairwise.nil
  | s :: ss => pairwise_insertByCount s _ (sorted_sortByCountDesc ss)

lemma mem_firstOccIds (x : ℕ) :
    ∀ l : List ℕ, x ∈ l → x ∈ firstOccIds l
  | y :: ys, hx => by
      rw [firstOccIds]
      rcases List.mem_cons.mp hx with rfl | hx'
      · exact List.mem_cons_self _ _
      · by_cases hxy : x = y
        · subst hxy
          exact List.mem_cons_self _ _
        · refine List.mem_cons_of_mem _ ?_
          refine List.mem_filter.mpr ⟨mem_firstOccIds x ys hx', ?_⟩
          simp [hxy]

/-! ## Claim theorems -/

/-- Claim C1: for every assignment and submitted answer list,
`submitAssignment` marks an answer correct iff the trimmed,
case-insensitive submitted text equals the trimmed, case-insensitive
`correctAnswer` of the matching question, awards that question's full
point value on a match and zero otherwise (identically for every
question type), sets `score` to the sum of the awarded points, and sets
`percentage` to `round(score/totalPoints*100)`, or 0 whenever
`totalPoints` is 0. -/
theorem submitAssignment_grading (a : Assignment) (sid : ℕ)
    (answers : List SubmittedAnswer) (now : ℤ) :
    (∀ sub ∈ (submitAssignment a sid answers now).submissions,
      sub.studentId = sid →
        List.Forall₂ (fun (giv : SubmittedAnswer) (pa : ProcessedAnswer) =>
            (pa.isCorrect = true ↔ ∃ q, findQuestion a giv.questionId = some q ∧
                lowerTrim giv.answer = lowerTrim q.correctAnswer) ∧
            (∀ q, findQuestion a giv.questionId = some q →
              pa.pointsEarned =
                if lowerTrim giv.answer = lowerTrim q.correctAnswer
                then q.points else 0) ∧
            (findQuestion a giv.questionId = none → pa.pointsEarned = 0))
          answers sub.answers ∧
        sub.score = (((sub.answers.map (fun pa => pa.pointsEarned)).sum : ℕ) : ℤ) ∧
        sub.percentage = (if a.totalPoints = 0 then 0
          else jsRound ((sub.score : ℚ) / (a.totalPoints : ℚ) * 100))) ∧
    (∀ qt, submitAssignment (retypeQuestions qt a) sid answers now =
        retypeQuestions qt (submitAssignment a sid answers now)) := by
  constructor
  · intro sub hmem hsid
    simp only [submitAssignment] at hmem
    rcases List.mem_append.mp hmem with h | h
    · exfalso
      have := (List.mem_filter.mp h).2
      simp only [bne_iff_ne, ne_eq] at this
      exact this hsid
    · have hsub := List.mem_singleton.mp h
      subst hsub
      refine ⟨?_, rfl, percentageOf_eq a.totalPoints _⟩
      rw [List.forall₂_map_right_iff, List.forall₂_same]
      intro giv _
      unfold processAnswer
      cases hq : findQuestion a giv.questionId with
      | none => simp [hq]
      | some q =>
          by_cases hm : lowerTrim giv.answer = lowerTrim q.correctAnswer <;>
            simp [hq, hm]
  · intro qt
    exact submitAssignment_retype qt a sid answers now

/-- Witness for C1 at a concrete assignment and answer list. -/
theorem submitAssignment_grading_witness :
    exNewSub ∈ (submitAssignment exAssignment 3 exAnswers 0).submissions ∧
    exNewSub.studentId = 3 ∧
    (List.Forall₂ (fun (giv : SubmittedAnswer) (pa : ProcessedAnswer) =>
        (pa.isCorrect = true ↔ ∃ q, findQuestion exAssignment giv.questionId = some q ∧
            lowerTrim giv.answer = lowerTrim q.correctAnswer) ∧
        (∀ q, findQuestion exAssignment giv.questionId = some q →
          pa.pointsEarned =
            if lowerTrim giv.answer = lowerTrim q.correctAnswer
            then q.points else 0) ∧
        (findQuestion exAssignment giv.questionId = none → pa.pointsEarned = 0))
      exAnswers exNewSub.answers ∧
    exNewSub.score = (((exNewSub.answers.map (fun pa => pa.pointsEarned)).sum : ℕ) : ℤ) ∧
    exNewSub.percentage = (if exAssignment.totalPoints = 0 then 0
      else jsRound ((exNewSub.score : ℚ) / (exAssignment.totalPoints : ℚ) * 100))) :=
  ⟨by rw [exSubmitEval]; decide, rfl,
    (submitAssignment_grading exAssignment 3 exAnswers 0).1 exNewSub
      (by rw [exSubmitEval]; decide) rfl⟩

/-- Claim C4: after `submitAssignment` completes for a student, the
submissions list contains exactly one entry with that student's id, and
submissions of other students are untouched. -/
theorem submitAssignment_one_entry_per_student (a : Assignment) (sid : ℕ)
    (answers : List SubmittedAnswer) (now : ℤ) :
    ((submitAssignment a sid answers now).submissions.countP
        (fun s => s.studentId == sid) = 1) ∧
    ((submitAssignment a sid answers now).submissions.filter
        (fun s => s.studentId != sid) =
      a.submissions.filter (fun s => s.studentId != sid)) := by
  constructor
  · simp only [submitAssignment]
    rw [List.countP_append]
    have h0 : (a.submissions.filter (fun s => s.studentId != sid)).countP
        (fun s => s.studentId == sid) = 0 := by
      rw [List.countP_eq_zero]
      intro s hs
      have h := (List.mem_filter.mp hs).2
      simp only [bne_iff_ne, ne_eq] at h
      simp [h]
    rw [h0]
    simp [List.countP_cons]
  · simp only [submitAssignment]
    rw [List.filter_append, List.filter_filter]
    simp

/-- Claim C5: `gradeAssignment` overwrites score, feedback, gradedAt and
gradedBy on the student's existing submission and recomputes percentage
as `round(score/totalPoints*100)` (0 when `totalPoints` is 0), and fails
with NotFound — leaving the assignment unchanged, since the error is
raised before anything is written — when no prior submission exists for
that student. -/
theorem gradeAssignment_spec (a : Assignment) (sid : ℕ) (score : ℤ)
    (fb : List Char) (gb : ℕ) (now : ℤ) :
    ((∀ s ∈ a.submissions, s.studentId ≠ sid) →
       gradeAssignment a sid score fb gb now =
         Except.error ("Submission not found".toList)) ∧
    (∀ l₁ s l₂, a.submissions = l₁ ++ s :: l₂ →
       (∀ t ∈ l₁, t.studentId ≠ sid) → s.studentId = sid →
       gradeAssignment a sid score fb gb now =
         Except.ok { a with submissions := l₁ ++
           { s with score := score,
                    percentage := (if a.totalPoints = 0 then 0
                      else jsRound ((score : ℚ) / (a.totalPoints : ℚ) * 100)),
                    feedback := some fb,
                    gradedAt := some now,
                    gradedBy := some gb } :: l₂ }) := by
  constructor
  · intro h
    unfold gradeAssignment
    rw [updateFirst_eq_none _ _ a.submissions
      (fun x hx => beq_eq_false_iff_ne.mpr (h x hx))]
  · intro l₁ s l₂ heq h₁ hs
    unfold gradeAssignment
    rw [heq, updateFirst_append _ _ l₁ s l₂
      (fun t ht => beq_eq_false_iff_ne.mpr (h₁ t ht))
      (beq_iff_eq.mpr hs)]
    simp [regrade, percentageOf_eq]

/-- Witness for C5: manually grading student 7's existing submission of
`exAssignment`. -/
theorem gradeAssignment_spec_witness :
    gradeAssignment exAssignment 7 4 ("good".toList) 9 100 =
      Except.ok { exAssignment with submissions :=
        [{ exOldSub with
           score := 4,
           percentage := (if exAssignment.totalPoints = 0 then 0
             else jsRound ((4 : ℚ) / (exAssignment.totalPoints : ℚ) * 100)),
           feedback := some ("good".toList),
           gradedAt := some 100,
           gradedBy := some 9 }] } :=
  (gradeAssignment_spec exAssignment 7 4 ("good".toList) 9 100).2
    [] exOldSub [] rfl (by simp) rfl

/-- Claim C6, counterexample: an answer referencing a questionId absent
from the assignment's questions does NOT produce a NotFound failure; the
call succeeds and the answer is scored as incorrect with zero points. -/
theorem submitAssignment_missing_question_cex :
    findQuestion exAssignment6 99 = none ∧
    submitAssignmentE exAssignment6 5
        [{ questionId := 99, answer := ("yes".toList) }] 0 =
      Except.ok { exAssignment6 with submissions :=
        [{ studentId := 5,
           answers := [{ questionId := 99, answer := ("yes".toList),
                         isCorrect := false, pointsEarned := 0 }],
           score := 0, percentage := 0, feedback := none, submittedAt := 0,
           gradedAt := none, gradedBy := none }] } := by
  constructor
  · decide
  · unfold submitAssignmentE
    simp only [submitAssignment]
    have hans : ([{ questionId := 99, answer := ("yes".toList) }] :
        List SubmittedAnswer).map (processAnswer exAssignment6) =
        [{ questionId := 99, answer := ("yes".toList), isCorrect := false,
           pointsEarned := 0 }] := by decide
    rw [hans]
    have hfil : exAssignment6.submissions.filter (fun s => s.studentId != 5) =
        [] := by decide
    rw [hfil]
    have hpct : percentageOf exAssignment6.totalPoints
        ((([({ questionId := 99, answer := ("yes".toList),
               isCorrect := false, pointsEarned := 0 } : ProcessedAnswer)].map
          (fun pa => pa.pointsEarned)).sum : ℕ) : ℤ) = 0 := by
      norm_num [percentageOf, exAssignment6, jsRound]
    rw [hpct]
    simp

/-- Claim C6, amended: when a submitted answer references a questionId
absent from the assignment's questions, `submitAssignment` still
succeeds and silently scores that answer as incorrect with zero points
earned; no NotFound failure is propagated. -/
theorem submitAssignment_missing_question_silent (a : Assignment) (sid : ℕ)
    (answers : List SubmittedAnswer) (now : ℤ) (ans : SubmittedAnswer)
    (h : findQuestion a ans.questionId = none) :
    (submitAssignmentE a sid answers now).isOk = true ∧
    processAnswer a ans = { questionId := ans.questionId,
                            answer := ans.answer,
                            isCorrect := false, pointsEarned := 0 } ∧
    (ans ∈ answers → ∀ sub ∈ (submitAssignment a sid answers now).submissions,
      sub.studentId = sid →
      { questionId := ans.questionId, answer := ans.answer,
        isCorrect := false, pointsEarned := 0 } ∈ sub.answers) := by
  have hzero : processAnswer a ans =
      { questionId := ans.questionId, answer := ans.answer,
        isCorrect := false, pointsEarned := 0 } := by
    unfold processAnswer
    rw [h]
  refine ⟨rfl, hzero, ?_⟩
  intro hmem sub hsub hsid
  simp only [submitAssignment] at hsub
  rcases List.mem_append.mp hsub with hk | hk
  · exfalso
    have := (List.mem_filter.mp hk).2
    simp only [bne_iff_ne, ne_eq] at this
    exact this hsid
  · have hsub2 := List.mem_singleton.mp hk
    subst hsub2
    rw [← hzero]
    exact List.mem_map_of_mem (processAnswer a) hmem

/-- Witness for the amended C6 at a concrete assignment and answer. -/
theorem submitAssignment_missing_question_silent_witness :
    (submitAssignmentE exAssignment6 5
        [{ questionId := 99, answer := ("yes".toList) }] 0).isOk = true ∧
    processAnswer exAssignment6 { questionId := 99, answer := ("yes".toList) } =
      { questionId := 99, answer := ("yes".toList), isCorrect := false,
        pointsEarned := 0 } := by
  have h := submitAssignment_missing_question_silent exAssignment6 5
    [{ questionId := 99, answer := ("yes".toList) }] 0
    { questionId := 99, answer := ("yes".toList) } (by decide)
  exact ⟨h.1, h.2.1⟩

/-- Claim C7: `addView` keeps at most one view record per student; a
first view inserts a record with the given percentage, a later view by
the same student sets the stored percentage to `max(old, new)` and
refreshes the date (so the stored watch percentage never decreases);
viewing with 40 then 30 leaves 40, then viewing with 90 stores 90. -/
theorem addView_spec (m : Media) (sid : ℕ) (pct : ℚ) (now : ℤ) :
    (∀ sid₀, m.views.countP (fun v => v.studentId == sid₀) ≤ 1 →
      (addView m sid pct now).views.countP (fun v => v.studentId == sid₀) ≤ 1) ∧
    ((∀ v ∈ m.views, v.studentId ≠ sid) →
      (addView m sid pct now).views =
        m.views ++ [{ studentId := sid, percentage := pct, date := now }]) ∧
    (∀ l₁ v l₂, m.views = l₁ ++ v :: l₂ → (∀ t ∈ l₁, t.studentId ≠ sid) →
      v.studentId = sid →
      (addView m sid pct now).views =
        l₁ ++ { v with percentage := max v.percentage pct, date := now } :: l₂ ∧
      v.percentage ≤ max v.percentage pct) ∧
    ((addView (addView (addView { views := [] } 1 40 0) 1 30 1) 1 90 2).views =
      [{ studentId := 1, percentage := 90, date := 2 }]) ∧
    ((addView (addView { views := [] } 1 40 0) 1 30 1).views =
      [{ studentId := 1, percentage := 40, date := 1 }]) := by
  refine ⟨?_, ?_, ?_, ?_, ?_⟩
  · intro sid₀ hle
    unfold addView
    cases hu : updateFirst (fun v => v.studentId == sid)
        (fun v => { v with percentage := max v.percentage pct, date := now })
        m.views with
    | some vs =>
        have hc := countP_updateFirst (fun v => v.studentId == sid)
          (fun v => v.studentId == sid₀)
          (fun v => { v with percentage := max v.percentage pct, date := now })
          (fun x _ => rfl) m.views vs hu
        simpa [hc] using hle
    | none =>
        simp only [List.countP_append]
        by_cases hsid : sid₀ = sid
        · subst hsid
          have h0 : m.views.countP (fun v => v.studentId == sid₀) = 0 :=
            List.countP_eq_zero.mpr (fun v hv => by
              simp [(updateFirst_none_iff _ _ m.views).mp hu v hv])
          simp [h0, List.countP_cons]
        · have hne : (sid == sid₀) = false :=
            beq_eq_false_iff_ne.mpr (Ne.symm hsid)
          simpa [List.countP_cons, hne] using hle
  · intro h
    unfold addView
    rw [(updateFirst_none_iff _ _ m.views).mpr
      (fun v hv => beq_eq_false_iff_ne.mpr (h v hv))]
  · intro l₁ v l₂ heq h₁ hv
    constructor
    · unfold addView
      rw [heq, updateFirst_append _ _ l₁ v l₂
        (fun t ht => beq_eq_false_iff_ne.mpr (h₁ t ht))
        (beq_iff_eq.mpr hv)]
    · exact le_max_left _ _
  · norm_num [addView, updateFirst]
  · norm_num [addView, updateFirst]

/-- Witness for C7: a second view by the same student on a one-record
media document. -/
theorem addView_spec_witness :
    (addView { views := [{ studentId := 1, percentage := 40, date := 0 }] }
        1 30 1).views =
      [{ studentId := 1, percentage := max 40 30, date := 1 }] := by
  have h := ((addView_spec
      { views := [{ studentId := 1, percentage := 40, date := 0 }] }
      1 30 1).2.2.1 []
      { studentId := 1, percentage := 40, date := 0 } [] rfl (by simp) rfl).1
  simpa using h

/-- Claim C3: `overallProgressScore` adds
(mean per-type averageAccuracy)/100*40 only when practiceStats is
non-empty, (mean per-class averagePercentage)/100*40 only when
assignmentPerformance is non-empty, and
(mean per-class averageWatchPercentage)/100*20 only when
mediaConsumption is non-empty, then returns
round(sumOfContributions/sumOfAppliedWeights*100), and 0 when all three
lists are empty; with only practiceStats = [averageAccuracy 80] it
returns 80. -/
theorem calculateOverallProgressScore_spec :
    (∀ (ps : List PracticeStat) (ap : List AssignmentPerf)
        (mc : List MediaCons),
      calculateOverallProgressScore ps ap mc =
        (if ps = [] ∧ ap = [] ∧ mc = [] then 0
         else jsRound
           (((if ps = [] then 0
              else ((ps.map (fun st => st.averageAccuracy)).sum /
                (ps.length : ℚ)) / 100 * 40) +
             (if ap = [] then 0
              else ((ap.map (fun p => p.averagePercentage)).sum /
                (ap.length : ℚ)) / 100 * 40) +
             (if mc = [] then 0
              else ((mc.map (fun m => m.averageWatchPercentage)).sum /
                (mc.length : ℚ)) / 100 * 20)) /
            ((if ps = [] then 0 else 40) + (if ap = [] then 0 else 40) +
             (if mc = [] then 0 else 20)) * 100))) ∧
    calculateOverallProgressScore [{ averageAccuracy := 80 }] [] [] = 80 ∧
    calculateOverallProgressScore [] [] [] = 0 := by
  refine ⟨?_, ?_, ?_⟩
  · intro ps ap mc
    by_cases hp : ps = [] <;> by_cases ha : ap = [] <;> by_cases hm : mc = [] <;>
      simp [calculateOverallProgressScore, hp, ha, hm, List.length_pos] <;>
      norm_num
  · norm_num [calculateOverallProgressScore, jsRound]
  · rfl

/-- Claim C2, counterexample: both `""` and `"!"` normalize to the empty
string, yet `evaluateWriting "" "!"` yields accuracy 0 and score 0 — not
the accuracy 100 the identical-normalization rule demands — because the
code's JavaScript falsiness guard `!content1 || !content2` returns
similarity 0 for an empty raw string before normalizing. -/
theorem evaluateWriting_empty_cex :
    normalizeContent [] = normalizeContent ("!".toList) ∧
    evaluateWriting [] ("!".toList) 100 = (0, 0) ∧ ((0 : ℤ) ≠ 100) := by
  refine ⟨by decide, ?_, by decide⟩
  norm_num [evaluateWriting, calculateContentSimilarity, jsRound]

/-- Claim C2, amended: for every pair of NON-EMPTY content strings,
`evaluateWriting` normalizes both (lowercase, strip all
non-alphanumeric/non-space characters, trim); if the normalized strings
are identical the similarity is 1, otherwise it is the count of
positions below `min(len1,len2)` with equal characters divided by
`max(len1,len2)`; accuracy = round(similarity*100) and
score = round(accuracy/100*maxScore); when either raw string is empty
the similarity is 0 instead. `evaluateWriting "abc" "abcdef"` yields
accuracy 50. -/
theorem evaluateWriting_spec :
    (∀ (c1 c2 : List Char) (maxScore : ℚ), c1 ≠ [] → c2 ≠ [] →
      evaluateWriting c1 c2 maxScore =
        (let sim : ℚ :=
          if normalizeContent c1 = normalizeContent c2 then 1
          else (positionalMatches (normalizeContent c1)
              (normalizeContent c2) : ℚ) /
            ((max (normalizeContent c1).length
              (normalizeContent c2).length : ℕ) : ℚ)
         let acc := jsRound (sim * 100)
         (acc, jsRound ((acc : ℚ) / 100 * maxScore)))) ∧
    (evaluateWriting ("abc".toList) ("abcdef".toList) 100).1 = 50 := by
  constructor
  · intro c1 c2 ms h1 h2
    have hg : ¬(c1 = [] ∨ c2 = []) := by simp [h1, h2]
    simp only [evaluateWriting, calculateContentSimilarity]
    rw [if_neg hg]
    by_cases hn : normalizeContent c1 = normalizeContent c2
    · simp [hn]
    · have hml : ¬(max (normalizeContent c1).length
          (normalizeContent c2).length = 0) := by
        intro h0
        rcases Nat.max_eq_zero_iff.mp h0 with ⟨ha, hb⟩
        exact hn (by rw [List.length_eq_zero.mp ha, List.length_eq_zero.mp hb])
      simp [hn, hml, countMatches_eq_positional]
  · have h1 : normalizeContent ("abc".toList) = "abc".toList := by decide
    have h2 : normalizeContent ("abcdef".toList) = "abcdef".toList := by decide
    have hne : ¬(("abc".toList : List Char) = ("abcdef".toList)) := by decide
    have hcm : countMatches ("abc".toList) ("abcdef".toList) = 3 := by decide
    have hg : ¬(("abc".toList : List Char) = [] ∨
        ("abcdef".toList : List Char) = []) := by decide
    have hlen : (max ("abc".toList).length ("abcdef".toList).length : ℕ) = 6 := by
      decide
    simp only [evaluateWriting, calculateContentSimilarity]
    rw [if_neg hg]
    rw [h1, h2, if_neg hne, hcm, hlen]
    norm_num [jsRound]

/-- Witness for the amended C2 at the pair ("abc", "abcdef"). -/
theorem evaluateWriting_spec_witness :
    evaluateWriting ("abc".toList) ("abcdef".toList) 100 =
      (let sim : ℚ :=
        if normalizeContent ("abc".toList) = normalizeContent ("abcdef".toList)
        then 1
        else (positionalMatches (normalizeContent ("abc".toList))
            (normalizeContent ("abcdef".toList)) : ℚ) /
          ((max (normalizeContent ("abc".toList)).length
            (normalizeContent ("abcdef".toList)).length : ℕ) : ℚ)
       let acc := jsRound (sim * 100)
       (acc, jsRound ((acc : ℚ) / 100 * 100))) :=
  evaluateWriting_spec.1 ("abc".toList) ("abcdef".toList) 100
    (by decide) (by decide)

/-- Claim C8, counterexample: the practice-stats endpoint has no
`quarter` case, so `period=quarter` falls to its 7-day default rather
than now − 90 days; the report endpoint has no `day` case, so
`period=day` falls to its 30-day default rather than the calendar-day
start. -/
theorem startDate_resolution_cex :
    practiceStatsStartDate ("quarter".toList)
        { ms := 0, year := 2026, month := 9, day := 11 } =
      DateExpr.ofMs (0 - daysMs 7) ∧
    practiceStatsStartDate ("quarter".toList)
        { ms := 0, year := 2026, month := 9, day := 11 } ≠
      DateExpr.ofMs (0 - daysMs 90) ∧
    reportStartDate ("day".toList)
        { ms := 0, year := 2026, month := 9, day := 11 } =
      DateExpr.ofMs (0 - daysMs 30) ∧
    reportStartDate ("day".toList)
        { ms := 0, year := 2026, month := 9, day := 11 } ≠
      DateExpr.ofYMD 2026 9 11 := by
  decide

/-- Claim C8, amended: each endpoint resolves only the period tokens its
switch lists and sends every other token to its own default. Report
endpoint: week = now − 7 days, month = now − 30 days,
quarter = now − 90 days, year = calendar-year start, anything else
(including day) = now − 30 days. Practice-stats endpoint: day =
calendar-day start, week = now − 7 days, month = calendar-month start,
year = calendar-year start, anything else (including quarter) =
now − 7 days. -/
theorem startDate_resolution_spec (now : JsDate) :
    reportStartDate ("week".toList) now = DateExpr.ofMs (now.ms - daysMs 7) ∧
    reportStartDate ("month".toList) now = DateExpr.ofMs (now.ms - daysMs 30) ∧
    reportStartDate ("quarter".toList) now =
      DateExpr.ofMs (now.ms - daysMs 90) ∧
    reportStartDate ("year".toList) now = DateExpr.ofYMD now.year 0 1 ∧
    reportStartDate ("day".toList) now = DateExpr.ofMs (now.ms - daysMs 30) ∧
    practiceStatsStartDate ("day".toList) now =
      DateExpr.ofYMD now.year now.month now.day ∧
    practiceStatsStartDate ("week".toList) now =
      DateExpr.ofMs (now.ms - daysMs 7) ∧
    practiceStatsStartDate ("month".toList) now =
      DateExpr.ofYMD now.year now.month 1 ∧
    practiceStatsStartDate ("year".toList) now = DateExpr.ofYMD now.year 0 1 ∧
    practiceStatsStartDate ("quarter".toList) now =
      DateExpr.ofMs (now.ms - daysMs 7) :=
  ⟨rfl, rfl, rfl, rfl, rfl, rfl, rfl, rfl, rfl, rfl⟩

/-- Claim C10, counterexample: a writing session whose request body
carries accuracy 10 and attempts 1, but whose content exactly matches
the target, is stored with recomputed accuracy 100 and yet
`isCompleted = false`, because the completion check reads the raw
request-body `accuracy` variable instead of the recomputed field. -/
theorem savePractice_completion_cex :
    (savePractice PType.writing ("abc".toList) (some ("abc".toList))
        (some 10) (some 5) (some 1)).accuracy = 100 ∧
    (savePractice PType.writing ("abc".toList) (some ("abc".toList))
        (some 10) (some 5) (some 1)).isCompleted = false := by
  have hg : ¬(("abc".toList : List Char) = [] ∨
      ("abc".toList : List Char) = []) := by decide
  have hs : calculateContentSimilarity ("abc".toList) ("abc".toList) = 1 := by
    unfold calculateContentSimilarity
    rw [if_neg hg, if_pos rfl]
  have he : evaluateWriting ("abc".toList) ("abc".toList) 100 = (100, 100) := by
    simp only [evaluateWriting, hs]
    norm_num [jsRound]
  have ht : truthyStr (some ("abc".toList)) = true := by decide
  constructor <;>
    · simp only [savePractice, ht, he, jsGe, jsOrQ]
      norm_num

/-- Claim C10, amended: `savePractice` sets `isCompleted` (and
`completionTime := timeSpent`) iff the RAW request-body accuracy is at
least 80 or the stored attempts (`attempts || 1`) are at least 3; for
writing sessions the stored accuracy is the one recomputed from content
comparison, but that recomputed value is NOT the one the completion
check consults. -/
theorem savePractice_completion_spec (ptype : PType) (content : List Char)
    (targetContent : Option (List Char)) (accuracy : Option ℚ)
    (timeSpent : Option ℚ) (attempts : Option ℚ) :
    ((savePractice ptype content targetContent accuracy timeSpent
        attempts).isCompleted =
      (jsGe accuracy 80 || decide ((3 : ℚ) ≤ jsOrQ attempts 1))) ∧
    ((savePractice ptype content targetContent accuracy timeSpent
        attempts).completionTime =
      (if jsGe accuracy 80 || decide ((3 : ℚ) ≤ jsOrQ attempts 1)
       then timeSpent else none)) ∧
    (∀ t, targetContent = some t → t ≠ [] → ptype = PType.writing →
      (savePractice ptype content targetContent accuracy timeSpent
          attempts).accuracy = ((evaluateWriting content t 100).1 : ℚ)) := by
  rcases targetContent with _ | t
  · by_cases hc : (jsGe accuracy 80 || decide ((3 : ℚ) ≤ jsOrQ attempts 1)) =
        true <;>
      simp [savePractice, truthyStr, hc]
  · by_cases hw : (decide (ptype = PType.writing) && !t.isEmpty) = true
    · refine ⟨?_, ?_, ?_⟩ <;>
        by_cases hc : (jsGe accuracy 80 ||
            decide ((3 : ℚ) ≤ jsOrQ attempts 1)) = true <;>
          simp [savePractice, truthyStr, hw, hc]
    · have hne : ∀ t', t = t' → ¬(t' ≠ [] ∧ ptype = PType.writing) := by
        intro t' ht hcontra
        apply hw
        rcases hcontra with ⟨h1, h2⟩
        subst ht
        simp [h2, List.isEmpty_iff, h1]
      refine ⟨?_, ?_, ?_⟩
      · by_cases hc : (jsGe accuracy 80 ||
            decide ((3 : ℚ) ≤ jsOrQ attempts 1)) = true <;>
          simp [savePractice, truthyStr, hw, hc]
      · by_cases hc : (jsGe accuracy 80 ||
            decide ((3 : ℚ) ≤ jsOrQ attempts 1)) = true <;>
          simp [savePractice, truthyStr, hw, hc]
      · intro t' ht' h1 h2
        exact absurd ⟨h1, h2⟩ (hne t' (by injection ht'))

/-- Witness for the amended C10: a writing session with matching content
and target. -/
theorem savePractice_completion_spec_witness :
    (savePractice PType.writing ("a".toList) (some ("a".toList)) (some 0)
        none none).accuracy =
      ((evaluateWriting ("a".toList) ("a".toList) 100).1 : ℚ) :=
  (savePractice_completion_spec PType.writing ("a".toList)
      (some ("a".toList)) (some 0) none none).2.2 ("a".toList) rfl
    (by decide) rfl

/-- Claim C9: class analytics groups the window's practice sessions by
student into (count, mean accuracy, total time) sorted by count
descending; topPerformers is the first 5 of that order and
strugglingStudents is the first 5 satisfying meanAccuracy < 60 OR
count < 3 — in particular, for the class with counts [10,2,8,1] at
accuracy 90, the two students with counts 2 and 1 are struggling despite
high accuracy, and the count-2 student appears in both lists (struggling
is not deduplicated against top performers). -/
theorem classAnalytics_engagement_spec :
    (∀ sessions : List PSession,
      (studentEngagement sessions).Pairwise countGE) ∧
    (∀ (sessions : List PSession) (st : EngagementStat),
      st ∈ studentEngagement sessions →
        st.totalPractices =
          (sessions.filter (fun s => s.studentId == st.studentId)).length ∧
        st.averageAccuracy =
          ((sessions.filter (fun s => s.studentId == st.studentId)).map
            (fun s => s.accuracy)).sum /
          (((sessions.filter
            (fun s => s.studentId == st.studentId)).length : ℕ) : ℚ) ∧
        st.totalTimeSpent =
          ((sessions.filter (fun s => s.studentId == st.studentId)).map
            (fun s => s.timeSpent)).sum) ∧
    (∀ (sessions : List PSession) (s : PSession), s ∈ sessions →
      ∃ st ∈ studentEngagement sessions, st.studentId = s.studentId) ∧
    (∀ sessions : List PSession,
      topPerformers sessions = (studentEngagement sessions).take 5) ∧
    (∀ sessions : List PSession,
      strugglingStudents sessions =
        ((studentEngagement sessions).filter isStruggling).take 5) ∧
    (∀ (sessions : List PSession) (st : EngagementStat),
      st ∈ strugglingStudents sessions →
        st.averageAccuracy < 60 ∨ st.totalPractices < 3) ∧
    (strugglingStudents exSessions =
      [{ studentId := 2, totalPractices := 2, averageAccuracy := 90,
         totalTimeSpent := 2 },
       { studentId := 4, totalPractices := 1, averageAccuracy := 90,
         totalTimeSpent := 1 }] ∧
     topPerformers exSessions =
      [{ studentId := 1, totalPractices := 10, averageAccuracy := 90,
         totalTimeSpent := 10 },
       { studentId := 3, totalPractices := 8, averageAccuracy := 90,
         totalTimeSpent := 8 },
       { studentId := 2, totalPractices := 2, averageAccuracy := 90,
         totalTimeSpent := 2 },
       { studentId := 4, totalPractices := 1, averageAccuracy := 90,
         totalTimeSpent := 1 }] ∧
     (∀ st, st ∈ strugglingStudents exSessions →
       ¬(st.averageAccuracy < 60) ∧ st.totalPractices < 3) ∧
     ({ studentId := 2, totalPractices := 2, averageAccuracy := 90,
        totalTimeSpent := 2 } : EngagementStat) ∈ topPerformers exSessions ∧
     ({ studentId := 2, totalPractices := 2, averageAccuracy := 90,
        totalTimeSpent := 2 } : EngagementStat) ∈
       strugglingStudents exSessions) := by
  have hmem : ∀ (sessions : List PSession) (st : EngagementStat),
      st ∈ studentEngagement sessions →
        st = statFor sessions st.studentId := by
    intro sessions st hst
    have h2 : st ∈ (firstOccIds (sessions.map (fun s => s.studentId))).map
        (statFor sessions) :=
      (perm_sortByCountDesc _).mem_iff.mp hst
    rcases List.mem_map.mp h2 with ⟨sid, _, heq⟩
    rw [← heq]
    rfl
  have hstruggling : strugglingStudents exSessions =
      [{ studentId := 2, totalPractices := 2, averageAccuracy := 90,
         totalTimeSpent := 2 },
       { studentId := 4, totalPractices := 1, averageAccuracy := 90,
         totalTimeSpent := 1 }] := by
    norm_num [strugglingStudents, studentEngagement, firstOccIds, statFor,
      sortByCountDesc, insertByCount, isStruggling, exSessions]
  have htop : topPerformers exSessions =
      [{ studentId := 1, totalPractices := 10, averageAccuracy := 90,
         totalTimeSpent := 10 },
       { studentId := 3, totalPractices := 8, averageAccuracy := 90,
         totalTimeSpent := 8 },
       { studentId := 2, totalPractices := 2, averageAccuracy := 90,
         totalTimeSpent := 2 },
       { studentId := 4, totalPractices := 1, averageAccuracy := 90,
         totalTimeSpent := 1 }] := by
    norm_num [topPerformers, studentEngagement, firstOccIds, statFor,
      sortByCountDesc, insertByCount, exSessions]
  refine ⟨?_, ?_, ?_, fun _ => rfl, fun _ => rfl, ?_, ?_⟩
  · intro sessions
    exact sorted_sortByCountDesc _
  · intro sessions st hst
    have h := hmem sessions st hst
    refine ⟨?_, ?_, ?_⟩ <;>
      · conv_lhs => rw [h]
        rfl
  · intro sessions s hs
    refine ⟨statFor sessions s.studentId, ?_, rfl⟩
    refine (perm_sortByCountDesc _).mem_iff.mpr ?_
    exact List.mem_map_of_mem (statFor sessions)
      (mem_firstOccIds _ _ (List.mem_map_of_mem (fun s => s.studentId) hs))
  · intro sessions st hst
    have h1 : st ∈ (studentEngagement sessions).filter isStruggling :=
      List.take_subset 5 _ hst
    have h2 := (List.mem_filter.mp h1).2
    simpa [isStruggling] using h2
  · refine ⟨hstruggling, htop, ?_, ?_, ?_⟩
    · intro st hst
      rw [hstruggling] at hst
      rcases List.mem_cons.mp hst with rfl | hst
      · constructor <;> norm_num
      · rcases List.mem_cons.mp hst with rfl | hst
        · constructor <;> norm_num
        · simp at hst
    · rw [htop]
      simp
    · rw [hstruggling]
      simp

/-- Witness for C9: the count-2 student of the example class satisfies
the struggling predicate through low count, via membership in the
struggling list. -/
theorem classAnalytics_engagement_spec_witness :
    ({ studentId := 2, totalPractices := 2, averageAccuracy := 90,
       totalTimeSpent := 2 } : EngagementStat).averageAccuracy < 60 ∨
    ({ studentId := 2, totalPractices := 2, averageAccuracy := 90,
       totalTimeSpent := 2 } : EngagementStat).totalPractices < 3 :=
  classAnalytics_engagement_spec.2.2.2.2.2.1 exSessions
    { studentId := 2, totalPractices := 2, averageAccuracy := 90,
      totalTimeSpent := 2 }
    classAnalytics_engagement_spec.2.2.2.2.2.2.2.2.2.2

end SignLang
